import Mathlib

/-!
Shallow embedding of the accent classification core of the
accent_analyzer_project repository:

* `normalize_confidence_to_float` from src/azure_speech_client.py
* `determine_accent_and_confidence` and `calculate_processing_quality`
  from src/accent_logic.py

Python dictionaries for the input and output records are modelled as
structures; Python floats are modelled as rationals; Python `int()`
conversion is truncation toward zero; Python string operations used by
the code (`lower`, `startswith`, `split("-")`, `split()`, `strip`) are
modelled over the character list of a `String`, with the same semantics
as the Python operations on the relevant inputs.
-/

/-- Python truthiness of an optional string value: `None` and the empty
string are falsy, every other string is truthy. -/
def optStrTruthy : Option String → Bool
  | none => false
  | some s => s != ""

/-- Python `int()` applied to a rational: truncation toward zero. -/
def pytrunc (q : ℚ) : ℤ := if 0 ≤ q then ⌊q⌋ else ⌈q⌉

/-- Rational multiplication, written through `Rat.divInt` so that it
reduces in the kernel; `ratMul_eq` identifies it with `*`. -/
def ratMul (a b : ℚ) : ℚ := Rat.divInt (a.num * b.num) (a.den * b.den)

theorem ratMul_eq (a b : ℚ) : ratMul a b = a * b := by
  unfold ratMul
  rw [Rat.divInt_eq_div]
  push_cast
  rw [← div_mul_div_comm, Rat.num_div_den, Rat.num_div_den]

/-- ASCII lowering of one character, as Python `str.lower` acts on ASCII. -/
def pyLowerChar (c : Char) : Char := Char.toLower c

/-- Python `str.lower`, restricted to ASCII case mapping. -/
def pyLower (s : String) : String := ⟨s.data.map pyLowerChar⟩

/-- Python whitespace set used by `str.split()` and `str.strip()`. -/
def pyIsSpace (c : Char) : Bool :=
  c == ' ' || c == '\t' || c == '\n' || c == '\x0b' || c == '\x0c' || c == '\r'

/-- Python `str.strip()`: remove leading and trailing whitespace. -/
def pyStrip (s : String) : String :=
  ⟨((s.data.dropWhile pyIsSpace).reverse.dropWhile pyIsSpace).reverse⟩

/-- Helper for `pyWordCount`: count maximal non-whitespace runs; the flag
records whether the previous character was inside a word. -/
def pyWordCountAux : List Char → Bool → ℕ
  | [], _ => 0
  | c :: cs, inWord =>
      if pyIsSpace c then pyWordCountAux cs false
      else if inWord then pyWordCountAux cs true
      else 1 + pyWordCountAux cs true

/-- Python `len(s.split())`: the number of whitespace-separated tokens,
empty tokens dropped. -/
def pyWordCount (s : String) : ℕ := pyWordCountAux s.data false

/-- Boolean prefix test on character lists, as Python `str.startswith`. -/
def listIsPrefix : List Char → List Char → Bool
  | [], _ => true
  | _ :: _, [] => false
  | a :: as, b :: bs => a == b && listIsPrefix as bs

/-- Python `s.split(sep)` for a one-character separator: split at every
occurrence, keeping empty pieces. -/
def splitOnChar (c : Char) : List Char → List (List Char)
  | [] => [[]]
  | x :: xs =>
      if x = c then [] :: splitOnChar c xs
      else
        match splitOnChar c xs with
        | [] => [[x]]
        | t :: ts => (x :: t) :: ts

/-- The heterogeneous confidence signal accepted by
`normalize_confidence_to_float`: a string, a numeric value, or any other
Python value (`None` included). -/
inductive ConfValue where
  | str (s : String)
  | num (q : ℚ)
  | other
deriving DecidableEq

/-- Translation of `normalize_confidence_to_float` from
src/azure_speech_client.py, lines 48 to 71: strings are matched
case-insensitively against the qualitative table with default 0.5,
numeric values are clamped to the unit interval, anything else maps
to 0.5. -/
def normalize_confidence_to_float : ConfValue → ℚ
  | .str s =>
      let l := pyLower s
      if l = "high" then mkRat 95 100
      else if l = "medium" then mkRat 70 100
      else if l = "low" then mkRat 40 100
      else mkRat 1 2
  | .num q => max 0 (min 1 q)
  | .other => mkRat 1 2

/-- The input record of `determine_accent_and_confidence`, with the
defaults the Python code supplies through `dict.get`. -/
structure RecognitionResult where
  detected_locale : Option String
  transcription_confidence : ConfValue
  transcript_text : String
  error : Option String
  raw_azure_response : Option String
deriving DecidableEq

/-- The `debug_info` dictionary assembled by
`determine_accent_and_confidence`; `word_count` is `some` exactly when
the Python code adds that key. -/
structure DebugInfo where
  raw_detected_locale : Option String
  raw_transcription_confidence : ConfValue
  normalized_confidence : ℚ
  transcript_length : ℕ
  azure_error : Option String
  raw_azure_response : Option String
  word_count : Option ℕ
deriving DecidableEq

/-- The output record of `determine_accent_and_confidence`. -/
structure ClassificationRecord where
  accent_classification : String
  confidence_in_english_accent : ℤ
  summary_explanation : String
  transcript_text : String
  processing_quality : String
  debug_info : DebugInfo
deriving DecidableEq

/-- The fixed locale table of src/accent_logic.py, lines 17 to 27. -/
def locale_to_accent : List (String × String) :=
  [("en-US", "American English"),
   ("en-GB", "British English"),
   ("en-AU", "Australian English"),
   ("en-CA", "Canadian English"),
   ("en-IN", "Indian English"),
   ("en-NZ", "New Zealand English"),
   ("en-ZA", "South African English"),
   ("en-IE", "Irish English"),
   ("en-SG", "Singaporean English")]

/-- The region extraction of src/accent_logic.py, line 71:
`detected_locale.split("-")[1] if "-" in detected_locale else "Unknown"`. -/
def region_code (dl : String) : String :=
  if '-' ∈ dl.data then ⟨(splitOnChar '-' dl.data).getD 1 []⟩
  else "Unknown"

/-- Translation of `calculate_processing_quality` from
src/accent_logic.py, lines 106 to 136, with the nested branch structure
of the source. The locale argument is accepted and never used, as in the
source. -/
def calculate_processing_quality (confidence : ℤ) (transcript_length : ℤ)
    (locale : Option String) : String :=
  if confidence = 0 then "Poor - No speech detected"
  else if confidence < 30 then "Poor - Low confidence"
  else if confidence < 60 then
    if transcript_length < 10 then "Fair - Moderate confidence, short audio"
    else "Good - Moderate confidence"
  else if confidence < 80 then
    if transcript_length > 50 then "Very Good - High confidence, sufficient audio"
    else "Good - High confidence"
  else
    if transcript_length > 50 then "Excellent - Very high confidence, sufficient audio"
    else "Very Good - Very high confidence"

/-- The branch chain of src/accent_logic.py, lines 48 to 81: given the
input record and the normalized confidence, produce the triple
(accent_classification, confidence_in_english_accent,
summary_explanation) before the transcript sentence is appended. -/
def classifyBranch (r : RecognitionResult) (normalized_confidence : ℚ) :
    String × ℤ × String :=
  if optStrTruthy r.error then
    ("Analysis Failed", 0, "Analysis failed: " ++ r.error.getD "")
  else if !(optStrTruthy r.detected_locale) then
    ("Undetermined", 0, "Could not detect any speech or language.")
  else if r.detected_locale.getD "" = "en" then
    let c := pytrunc (ratMul normalized_confidence 100)
    ("English (Undetermined Region)", c,
      "Detected generic English. Confidence in English: " ++ toString c ++
        "%. Language code: " ++ r.detected_locale.getD "" ++ ".")
  else if listIsPrefix "en-".data (r.detected_locale.getD "").data then
    let acc := match List.lookup (r.detected_locale.getD "") locale_to_accent with
      | some a => a
      | none => "English (Other Regional - " ++ region_code (r.detected_locale.getD "") ++ ")"
    let c := pytrunc (ratMul normalized_confidence 100)
    (acc, c,
      "Detected accent: " ++ acc ++ ". Confidence in English: " ++ toString c ++
        "%. Language code: " ++ r.detected_locale.getD "" ++ ".")
  else
    let c := max 0 (min 10 (pytrunc (ratMul normalized_confidence 10)))
    ("Non-English", c,
      "Detected non-English language. Language code: " ++ r.detected_locale.getD "" ++
        ". This tool is designed for English accent analysis.")

/-- Translation of `determine_accent_and_confidence` from
src/accent_logic.py, lines 5 to 103. -/
def determine_accent_and_confidence (r : RecognitionResult) : ClassificationRecord :=
  let normalized_confidence := normalize_confidence_to_float r.transcription_confidence
  let tlen : ℕ := if r.transcript_text != "" then r.transcript_text.length else 0
  let base := classifyBranch r normalized_confidence
  let word_count : Option ℕ :=
    if r.transcript_text ≠ "" ∧ 0 < (pyStrip r.transcript_text).length then
      some (pyWordCount r.transcript_text)
    else none
  let summary_explanation :=
    match word_count with
    | some n => base.2.2 ++ " Transcript contains " ++ toString n ++ " words."
    | none => base.2.2
  ClassificationRecord.mk base.1 base.2.1 summary_explanation r.transcript_text
    (calculate_processing_quality base.2.1 (tlen : ℤ) r.detected_locale)
    (DebugInfo.mk r.detected_locale r.transcription_confidence normalized_confidence
      tlen r.error r.raw_azure_response word_count)

/-- Boolean prefix test on strings. -/
def strIsPrefix (p s : String) : Bool := listIsPrefix p.data s.data

/-! ### Helper lemmas -/

theorem normalize_range (v : ConfValue) :
    0 ≤ normalize_confidence_to_float v ∧ normalize_confidence_to_float v ≤ 1 := by
  cases v with
  | str s =>
      simp only [normalize_confidence_to_float]
      split_ifs <;> constructor <;> decide
  | num q =>
      refine ⟨le_max_left _ _, max_le (by norm_num) ((min_le_left _ _).trans (by norm_num))⟩
  | other => exact ⟨by decide, by decide⟩

theorem determine_accent_eq (r : RecognitionResult) :
    (determine_accent_and_confidence r).accent_classification =
      (classifyBranch r (normalize_confidence_to_float r.transcription_confidence)).1 := rfl

theorem determine_confidence_eq (r : RecognitionResult) :
    (determine_accent_and_confidence r).confidence_in_english_accent =
      (classifyBranch r (normalize_confidence_to_float r.transcription_confidence)).2.1 := rfl

theorem determine_wordcount_eq (r : RecognitionResult) :
    (determine_accent_and_confidence r).debug_info.word_count =
      (if r.transcript_text ≠ "" ∧ 0 < (pyStrip r.transcript_text).length then
        some (pyWordCount r.transcript_text)
      else none) := rfl

theorem determine_summary_eq (r : RecognitionResult) :
    (determine_accent_and_confidence r).summary_explanation =
      if r.transcript_text ≠ "" ∧ 0 < (pyStrip r.transcript_text).length then
        (classifyBranch r (normalize_confidence_to_float r.transcription_confidence)).2.2 ++
          " Transcript contains " ++ toString (pyWordCount r.transcript_text) ++ " words."
      else (classifyBranch r (normalize_confidence_to_float r.transcription_confidence)).2.2 := by
  have h : (determine_accent_and_confidence r).summary_explanation =
      match (if r.transcript_text ≠ "" ∧ 0 < (pyStrip r.transcript_text).length then
        some (pyWordCount r.transcript_text) else none) with
      | some n =>
          (classifyBranch r (normalize_confidence_to_float r.transcription_confidence)).2.2 ++
            " Transcript contains " ++ toString n ++ " words."
      | none =>
          (classifyBranch r (normalize_confidence_to_float r.transcription_confidence)).2.2 := rfl
  rw [h]
  split_ifs <;> rfl

theorem classifyBranch_error (r : RecognitionResult) (nc : ℚ) (s : String)
    (herr : r.error = some s) (hs : s ≠ "") :
    classifyBranch r nc = ("Analysis Failed", 0, "Analysis failed: " ++ s) := by
  unfold classifyBranch
  rw [herr]
  simp [optStrTruthy, hs]

theorem classifyBranch_en (r : RecognitionResult) (nc : ℚ)
    (herr : optStrTruthy r.error = false) (hloc : r.detected_locale = some "en") :
    classifyBranch r nc =
      ("English (Undetermined Region)", pytrunc (ratMul nc 100),
        "Detected generic English. Confidence in English: " ++
          toString (pytrunc (ratMul nc 100)) ++ "%. Language code: " ++ "en" ++ ".") := by
  unfold classifyBranch
  rw [herr, hloc]
  simp [optStrTruthy]

theorem classifyBranch_region (r : RecognitionResult) (nc : ℚ) (dl : String)
    (herr : optStrTruthy r.error = false) (hloc : r.detected_locale = some dl)
    (h1 : dl ≠ "en") (h2 : listIsPrefix "en-".data dl.data = true) :
    classifyBranch r nc =
      (let acc := match List.lookup dl locale_to_accent with
        | some a => a
        | none => "English (Other Regional - " ++ region_code dl ++ ")"
      (acc, pytrunc (ratMul nc 100),
        "Detected accent: " ++ acc ++ ". Confidence in English: " ++
          toString (pytrunc (ratMul nc 100)) ++ "%. Language code: " ++ dl ++ ".")) := by
  have hne : dl ≠ "" := by
    intro he
    rw [he] at h2
    exact absurd h2 (by decide)
  unfold classifyBranch
  rw [herr, hloc]
  simp [optStrTruthy, hne, h1, h2]

theorem pytrunc_ratMul_100_range (nc : ℚ) (h0 : 0 ≤ nc) (h1 : nc ≤ 1) :
    0 ≤ pytrunc (ratMul nc 100) ∧ pytrunc (ratMul nc 100) ≤ 100 := by
  rw [ratMul_eq]
  have hge : (0 : ℚ) ≤ nc * 100 := by positivity
  have hle : nc * 100 ≤ 100 := by nlinarith
  unfold pytrunc
  rw [if_pos hge]
  refine ⟨Int.le_floor.mpr (by exact_mod_cast hge), ?_⟩
  have h := Int.floor_le_floor hle
  simpa using h

theorem pytrunc_ratMul_10_range (nc : ℚ) (h0 : 0 ≤ nc) (h1 : nc ≤ 1) :
    0 ≤ pytrunc (ratMul nc 10) ∧ pytrunc (ratMul nc 10) ≤ 10 := by
  rw [ratMul_eq]
  have hge : (0 : ℚ) ≤ nc * 10 := by positivity
  have hle : nc * 10 ≤ 10 := by nlinarith
  unfold pytrunc
  rw [if_pos hge]
  refine ⟨Int.le_floor.mpr (by exact_mod_cast hge), ?_⟩
  have h := Int.floor_le_floor hle
  simpa using h

theorem listIsPrefix_append (p t : List Char) : listIsPrefix p (p ++ t) = true := by
  induction p with
  | nil => rfl
  | cons a as ih => simp [listIsPrefix, ih]

theorem strIsPrefix_append (a b : String) : strIsPrefix a (a ++ b) = true := by
  obtain ⟨la⟩ := a
  obtain ⟨lb⟩ := b
  show listIsPrefix la (la ++ lb) = true
  exact listIsPrefix_append la lb

theorem strIsPrefix_self (a : String) : strIsPrefix a a = true := by
  have h := strIsPrefix_append a ""
  simpa using h

theorem listIsPrefix_append_left : ∀ (p s t : List Char),
    listIsPrefix p s = true → listIsPrefix p (s ++ t) = true
  | [], _, _, _ => rfl
  | _ :: _, [], _, h => by simp [listIsPrefix] at h
  | a :: as, b :: bs, t, h => by
      simp only [listIsPrefix, Bool.and_eq_true, beq_iff_eq] at h
      simp only [List.cons_append, listIsPrefix, Bool.and_eq_true, beq_iff_eq]
      exact ⟨h.1, listIsPrefix_append_left as bs t h.2⟩

theorem strIsPrefix_append_left (p s t : String) (h : strIsPrefix p s = true) :
    strIsPrefix p (s ++ t) = true := by
  obtain ⟨lp⟩ := p
  obtain ⟨ls⟩ := s
  obtain ⟨lt⟩ := t
  exact listIsPrefix_append_left lp ls lt h

theorem mem_of_listIsPrefix {c : Char} : ∀ (p s : List Char),
    listIsPrefix p s = true → c ∈ p → c ∈ s
  | [], _, _, hc => absurd hc (List.not_mem_nil c)
  | _ :: _, [], h, _ => by simp [listIsPrefix] at h
  | a :: as, b :: bs, h, hc => by
      simp only [listIsPrefix, Bool.and_eq_true, beq_iff_eq] at h
      rcases List.mem_cons.mp hc with rfl | hc2
      · rw [h.1]
        exact List.mem_cons_self _ _
      · exact List.mem_cons_of_mem _ (mem_of_listIsPrefix as bs h.2 hc2)

theorem str_ne_empty_iff_length (s : String) : s ≠ "" ↔ 0 < s.length := by
  obtain ⟨l⟩ := s
  cases l with
  | nil => simp [String.length]
  | cons c cs =>
      constructor
      · intro _
        simp [String.length]
      · intro _ he
        exact absurd (congrArg String.data he) (by simp)

theorem word_condition_iff (s : String) :
    (s ≠ "" ∧ 0 < (pyStrip s).length) ↔ pyStrip s ≠ "" := by
  constructor
  · rintro ⟨_, h2⟩
    exact (str_ne_empty_iff_length _).mpr h2
  · intro h
    refine ⟨?_, (str_ne_empty_iff_length _).mp h⟩
    intro he
    rw [he] at h
    exact h (by decide)

theorem classifyBranch_nonEnglish (r : RecognitionResult) (nc : ℚ) (dl : String)
    (herr : optStrTruthy r.error = false) (hloc : r.detected_locale = some dl)
    (hne : dl ≠ "") (h1 : dl ≠ "en") (h2 : listIsPrefix "en-".data dl.data = false) :
    classifyBranch r nc =
      ("Non-English", max 0 (min 10 (pytrunc (ratMul nc 10))),
        "Detected non-English language. Language code: " ++ dl ++
          ". This tool is designed for English accent analysis.") := by
  unfold classifyBranch
  rw [herr, hloc]
  simp [optStrTruthy, hne, h1, h2]

/-- The quality rating rule as the spec states it: a flat guard chain on
the score and the transcript length, first match wins. -/
def rate_spec (score length : ℤ) : String :=
  if score = 0 then "Poor - No speech detected"
  else if score < 30 then "Poor - Low confidence"
  else if score < 60 ∧ length < 10 then "Fair - Moderate confidence, short audio"
  else if score < 60 then "Good - Moderate confidence"
  else if score < 80 ∧ length > 50 then "Very Good - High confidence, sufficient audio"
  else if score < 80 then "Good - High confidence"
  else if length > 50 then "Excellent - Very high confidence, sufficient audio"
  else "Very Good - Very high confidence"

/-- The confidence normalizer as the spec states it: strings matched
case-insensitively against the qualitative table with default 0.5, a
numeric value in the unit interval returned unchanged and one outside it
clamped to the nearest bound, anything else 0.5. -/
def normalize_spec : ConfValue → ℚ
  | .str s =>
      if pyLower s = "high" then mkRat 95 100
      else if pyLower s = "medium" then mkRat 70 100
      else if pyLower s = "low" then mkRat 40 100
      else mkRat 1 2
  | .num q => if q < 0 then 0 else if 1 < q then 1 else q
  | .other => mkRat 1 2

/-! ### Claim theorems -/

/-- C5: for every integer score and integer length, and for every locale
argument, `calculate_processing_quality` returns the string of the first
matching guard of the ordered chain given in the claim. -/
theorem C5_quality_rating_chain (score length : ℤ) (locale : Option String) :
    calculate_processing_quality score length locale = rate_spec score length := by
  unfold calculate_processing_quality rate_spec
  split_ifs <;> first | rfl | omega

/-- C6: the confidence normalizer is total with range inside the unit
interval, and agrees with the spec rules: case-insensitive string table
with default 0.5, clamping for numeric values, 0.5 for anything else. -/
theorem C6_normalizer_total_and_clamped (v : ConfValue) :
    normalize_confidence_to_float v = normalize_spec v ∧
    0 ≤ normalize_confidence_to_float v ∧ normalize_confidence_to_float v ≤ 1 := by
  refine ⟨?_, normalize_range v⟩
  cases v with
  | str s => rfl
  | num q =>
      show max 0 (min 1 q) = if q < 0 then 0 else if 1 < q then 1 else q
      simp only [max_def, min_def]
      split_ifs <;> linarith
  | other => rfl

/-- C8: in every branch, the confidence_in_english_accent field of the
record returned by the classifier is an integer between 0 and 100. -/
theorem C8_score_in_range (r : RecognitionResult) :
    0 ≤ (determine_accent_and_confidence r).confidence_in_english_accent ∧
    (determine_accent_and_confidence r).confidence_in_english_accent ≤ 100 := by
  rw [determine_confidence_eq]
  have hnc := normalize_range r.transcription_confidence
  have h100 := pytrunc_ratMul_100_range _ hnc.1 hnc.2
  have h10 := pytrunc_ratMul_10_range _ hnc.1 hnc.2
  unfold classifyBranch
  split_ifs
  · exact ⟨le_refl 0, by norm_num⟩
  · exact ⟨le_refl 0, by norm_num⟩
  · exact ⟨h100.1, h100.2⟩
  · exact ⟨h100.1, h100.2⟩
  · refine ⟨le_max_left _ _, ?_⟩
    exact max_le (by norm_num) ((min_le_left _ _).trans (by norm_num))

/-- C9: the classifier is referentially transparent: identical inputs
yield identical output records in all fields. -/
theorem C9_referential_transparency (r₁ r₂ : RecognitionResult) (h : r₁ = r₂) :
    determine_accent_and_confidence r₁ = determine_accent_and_confidence r₂ :=
  congrArg determine_accent_and_confidence h

/-- Witness for C9 at a concrete input. -/
theorem C9_witness :
    determine_accent_and_confidence
        (RecognitionResult.mk (some "en-GB") (.num (mkRat 9 10)) "hello there" none none) =
      determine_accent_and_confidence
        (RecognitionResult.mk (some "en-GB") (.num (mkRat 9 10)) "hello there" none none) :=
  C9_referential_transparency _ _ rfl

/-- C10: locale matching is case-sensitive: an uppercase locale such as
"EN-US" is classified "Non-English", not "American English". -/
theorem C10_case_sensitive_locale (r : RecognitionResult)
    (herr : optStrTruthy r.error = false)
    (hloc : r.detected_locale = some "EN-US") :
    (determine_accent_and_confidence r).accent_classification = "Non-English" ∧
    (determine_accent_and_confidence r).accent_classification ≠ "American English" := by
  rw [determine_accent_eq,
    classifyBranch_nonEnglish r _ "EN-US" herr hloc (by decide) (by decide) (by decide)]
  refine ⟨rfl, ?_⟩
  show ("Non-English" : String) ≠ "American English"
  decide

/-- Witness for C10 at a concrete input. -/
theorem C10_witness :
    (determine_accent_and_confidence
        (RecognitionResult.mk (some "EN-US") (.num 1) "" none none)).accent_classification =
      "Non-English" ∧
    (determine_accent_and_confidence
        (RecognitionResult.mk (some "EN-US") (.num 1) "" none none)).accent_classification ≠
      "American English" :=
  C10_case_sensitive_locale (RecognitionResult.mk (some "EN-US") (.num 1) "" none none) rfl rfl

/-- C4: for every English locale (exactly "en" or starting with "en-"),
when no error is present, the score is the truncation toward zero of
normalized_confidence * 100. -/
theorem C4_english_score_truncation (r : RecognitionResult) (dl : String)
    (herr : optStrTruthy r.error = false)
    (hloc : r.detected_locale = some dl)
    (hen : dl = "en" ∨ listIsPrefix "en-".data dl.data = true) :
    (determine_accent_and_confidence r).confidence_in_english_accent =
      pytrunc (normalize_confidence_to_float r.transcription_confidence * 100) := by
  rw [determine_confidence_eq, ← ratMul_eq]
  by_cases he : dl = "en"
  · subst he
    rw [classifyBranch_en r _ herr hloc]
  · rcases hen with h | h
    · exact absurd h he
    · rw [classifyBranch_region r _ dl herr hloc he h]

/-- Witness for C4: "en-US" at confidence 0.876 gives "American English"
with score 87 (truncation of 87.6, not rounding). -/
theorem C4_witness :
    (determine_accent_and_confidence
        (RecognitionResult.mk (some "en-US") (.num (mkRat 876 1000)) "" none none)).confidence_in_english_accent =
      pytrunc (normalize_confidence_to_float (.num (mkRat 876 1000)) * 100) ∧
    (determine_accent_and_confidence
        (RecognitionResult.mk (some "en-US") (.num (mkRat 876 1000)) "" none none)).accent_classification =
      "American English" ∧
    (determine_accent_and_confidence
        (RecognitionResult.mk (some "en-US") (.num (mkRat 876 1000)) "" none none)).confidence_in_english_accent =
      87 :=
  ⟨C4_english_score_truncation
      (RecognitionResult.mk (some "en-US") (.num (mkRat 876 1000)) "" none none) "en-US"
      rfl rfl (Or.inr (by decide)),
    by decide, by decide⟩

/-- C7: the word-count sentence is appended to the explanation, and
word_count recorded in debug info, exactly when the transcript is
non-empty after trimming whitespace. -/
theorem C7_word_count_sentence (r : RecognitionResult) :
    (pyStrip r.transcript_text ≠ "" →
      (determine_accent_and_confidence r).summary_explanation =
        (classifyBranch r (normalize_confidence_to_float r.transcription_confidence)).2.2 ++
          " Transcript contains " ++ toString (pyWordCount r.transcript_text) ++ " words." ∧
      (determine_accent_and_confidence r).debug_info.word_count =
        some (pyWordCount r.transcript_text)) ∧
    (pyStrip r.transcript_text = "" →
      (determine_accent_and_confidence r).summary_explanation =
        (classifyBranch r (normalize_confidence_to_float r.transcription_confidence)).2.2 ∧
      (determine_accent_and_confidence r).debug_info.word_count = none) := by
  constructor
  · intro h
    have hc : r.transcript_text ≠ "" ∧ 0 < (pyStrip r.transcript_text).length :=
      (word_condition_iff _).mpr h
    rw [determine_summary_eq, determine_wordcount_eq, if_pos hc, if_pos hc]
    exact ⟨rfl, rfl⟩
  · intro h
    have hc : ¬(r.transcript_text ≠ "" ∧ 0 < (pyStrip r.transcript_text).length) := by
      rw [word_condition_iff]
      exact fun hne => hne h
    rw [determine_summary_eq, determine_wordcount_eq, if_neg hc, if_neg hc]
    exact ⟨rfl, rfl⟩

/-- Witness for C7: a transcript with words gets the sentence and the
debug entry; a transcript of only spaces gets neither. -/
theorem C7_witness :
    ((determine_accent_and_confidence
        (RecognitionResult.mk (some "en-US") (.num 1) "hello world" none none)).summary_explanation =
      (classifyBranch (RecognitionResult.mk (some "en-US") (.num 1) "hello world" none none)
          (normalize_confidence_to_float (.num 1))).2.2 ++
        " Transcript contains " ++ toString (pyWordCount "hello world") ++ " words." ∧
     (determine_accent_and_confidence
        (RecognitionResult.mk (some "en-US") (.num 1) "hello world" none none)).debug_info.word_count =
      some (pyWordCount "hello world")) ∧
    ((determine_accent_and_confidence
        (RecognitionResult.mk (some "en-US") (.num 1) "   " none none)).summary_explanation =
      (classifyBranch (RecognitionResult.mk (some "en-US") (.num 1) "   " none none)
          (normalize_confidence_to_float (.num 1))).2.2 ∧
     (determine_accent_and_confidence
        (RecognitionResult.mk (some "en-US") (.num 1) "   " none none)).debug_info.word_count = none) :=
  ⟨(C7_word_count_sentence
      (RecognitionResult.mk (some "en-US") (.num 1) "hello world" none none)).1 (by decide),
   (C7_word_count_sentence
      (RecognitionResult.mk (some "en-US") (.num 1) "   " none none)).2 (by decide)⟩

/-- C1 counterexample: an error that is present but equal to the empty
string does not short-circuit: the code classifies by locale and returns
a non-zero score, contradicting the claim at this input. -/
theorem C1_counterexample :
    (determine_accent_and_confidence
        (RecognitionResult.mk (some "fr-FR") (.num 1) "" (some "") none)).accent_classification ≠
      "Analysis Failed" ∧
    (determine_accent_and_confidence
        (RecognitionResult.mk (some "fr-FR") (.num 1) "" (some "") none)).confidence_in_english_accent ≠
      0 := by
  decide

/-- C1 (amended): for every RecognitionResult whose error field is
present and non-empty, the classifier returns "Analysis Failed", score 0,
and an explanation beginning "Analysis failed: {error}", regardless of
the other fields. -/
theorem C1_error_short_circuit (r : RecognitionResult) (s : String)
    (herr : r.error = some s) (hs : s ≠ "") :
    (determine_accent_and_confidence r).accent_classification = "Analysis Failed" ∧
    (determine_accent_and_confidence r).confidence_in_english_accent = 0 ∧
    strIsPrefix ("Analysis failed: " ++ s)
      (determine_accent_and_confidence r).summary_explanation = true := by
  have hb := classifyBranch_error r (normalize_confidence_to_float r.transcription_confidence) s herr hs
  refine ⟨?_, ?_, ?_⟩
  · rw [determine_accent_eq, hb]
  · rw [determine_confidence_eq, hb]
  · rw [determine_summary_eq, hb]
    split_ifs
    · exact strIsPrefix_append_left _ _ _ (strIsPrefix_append_left _ _ _ (strIsPrefix_append _ _))
    · exact strIsPrefix_self _

/-- Witness for C1 at a concrete input with a non-empty error. -/
theorem C1_witness :
    (determine_accent_and_confidence
        (RecognitionResult.mk (some "en-US") (.num 1) "hi" (some "boom") none)).accent_classification =
      "Analysis Failed" ∧
    (determine_accent_and_confidence
        (RecognitionResult.mk (some "en-US") (.num 1) "hi" (some "boom") none)).confidence_in_english_accent =
      0 ∧
    strIsPrefix ("Analysis failed: " ++ "boom")
      (determine_accent_and_confidence
        (RecognitionResult.mk (some "en-US") (.num 1) "hi" (some "boom") none)).summary_explanation =
      true :=
  C1_error_short_circuit
    (RecognitionResult.mk (some "en-US") (.num 1) "hi" (some "boom") none) "boom" rfl (by decide)

/-- C2 counterexample: for the multi-part tag "en-XX-YY" the code labels
the region "XX" (the second dash-separated component), not "XX-YY" (the
whole substring after the first dash) as the claim states. -/
theorem C2_counterexample :
    (determine_accent_and_confidence
        (RecognitionResult.mk (some "en-XX-YY") (.num 1) "" none none)).accent_classification ≠
      "English (Other Regional - XX-YY)" ∧
    (determine_accent_and_confidence
        (RecognitionResult.mk (some "en-XX-YY") (.num 1) "" none none)).accent_classification =
      "English (Other Regional - XX)" := by
  decide

/-- C2 (amended): for every detected_locale starting with "en-" that is
not a key of the locale table, the label is
"English (Other Regional - {REGION})" where REGION is the second
dash-separated component of the locale (the substring between the first
dash and the next dash, if any). -/
theorem C2_other_regional_second_component (r : RecognitionResult) (dl : String)
    (herr : optStrTruthy r.error = false)
    (hloc : r.detected_locale = some dl)
    (hpre : listIsPrefix "en-".data dl.data = true)
    (hnotin : List.lookup dl locale_to_accent = none) :
    (determine_accent_and_confidence r).accent_classification =
      "English (Other Regional - " ++ String.mk ((splitOnChar '-' dl.data).getD 1 []) ++ ")" := by
  have h1 : dl ≠ "en" := by
    intro he
    rw [he] at hpre
    exact absurd hpre (by decide)
  have hmem : '-' ∈ dl.data :=
    mem_of_listIsPrefix "en-".data dl.data hpre (by decide)
  rw [determine_accent_eq, classifyBranch_region r _ dl herr hloc h1 hpre]
  show (match List.lookup dl locale_to_accent with
    | some a => a
    | none => "English (Other Regional - " ++ region_code dl ++ ")") = _
  rw [hnotin]
  show "English (Other Regional - " ++ region_code dl ++ ")" = _
  unfold region_code
  rw [if_pos hmem]

/-- Witness for C2 at the concrete locale "en-XX-YY". -/
theorem C2_witness :
    (determine_accent_and_confidence
        (RecognitionResult.mk (some "en-XX-YY") (.num 1) "" none none)).accent_classification =
      "English (Other Regional - " ++ String.mk ((splitOnChar '-' "en-XX-YY".data).getD 1 []) ++ ")" :=
  C2_other_regional_second_component
    (RecognitionResult.mk (some "en-XX-YY") (.num 1) "" none none) "en-XX-YY"
    rfl rfl (by decide) (by decide)

/-- C3 counterexample: at transcription_confidence 0.55 on a non-English
locale, the code returns 5 (truncation of 5.5) while the claimed formula
clamp(round(normalized_confidence * 10), 0, 10) gives 6. -/
theorem C3_counterexample :
    (determine_accent_and_confidence
        (RecognitionResult.mk (some "fr-FR") (.num (mkRat 55 100)) "" none none)).confidence_in_english_accent =
      5 ∧
    max 0 (min 10 (round (normalize_confidence_to_float (.num (mkRat 55 100)) * 10))) = 6 := by
  constructor
  · decide
  · have h : normalize_confidence_to_float (.num (mkRat 55 100)) = mkRat 11 20 := by decide
    rw [h, Rat.mkRat_eq_div]
    norm_num [round_eq]

/-- C3 (amended): for every present, non-empty, non-English locale the
classifier returns "Non-English" with score
clamp(trunc(normalized_confidence * 10), 0, 10) (truncation toward zero,
not rounding); the score never exceeds 10 and equals exactly 10 when the
normalized confidence is 1. -/
theorem C3_nonenglish_clamped_truncation (r : RecognitionResult) (dl : String)
    (herr : optStrTruthy r.error = false)
    (hloc : r.detected_locale = some dl)
    (hne : dl ≠ "") (h1 : dl ≠ "en")
    (h2 : listIsPrefix "en-".data dl.data = false) :
    (determine_accent_and_confidence r).accent_classification = "Non-English" ∧
    (determine_accent_and_confidence r).confidence_in_english_accent =
      max 0 (min 10 (pytrunc (normalize_confidence_to_float r.transcription_confidence * 10))) ∧
    (determine_accent_and_confidence r).confidence_in_english_accent ≤ 10 ∧
    (normalize_confidence_to_float r.transcription_confidence = 1 →
      (determine_accent_and_confidence r).confidence_in_english_accent = 10) := by
  have hb := classifyBranch_nonEnglish r
    (normalize_confidence_to_float r.transcription_confidence) dl herr hloc hne h1 h2
  refine ⟨?_, ?_, ?_, ?_⟩
  · rw [determine_accent_eq, hb]
  · rw [determine_confidence_eq, hb, ← ratMul_eq]
  · rw [determine_confidence_eq, hb]
    show max 0 (min 10 (pytrunc (ratMul (normalize_confidence_to_float r.transcription_confidence) 10))) ≤ 10
    exact max_le (by norm_num) (min_le_left _ _)
  · intro h
    rw [determine_confidence_eq, hb]
    show max 0 (min 10 (pytrunc (ratMul (normalize_confidence_to_float r.transcription_confidence) 10))) = 10
    have h10 : ratMul (normalize_confidence_to_float r.transcription_confidence) 10 = 10 := by
      rw [ratMul_eq, h]
      norm_num
    rw [h10]
    decide

/-- Witness for C3 at locale "fr-FR" with confidence 1.0: the score is
exactly 10. -/
theorem C3_witness :
    (determine_accent_and_confidence
        (RecognitionResult.mk (some "fr-FR") (.num 1) "" none none)).accent_classification =
      "Non-English" ∧
    (determine_accent_and_confidence
        (RecognitionResult.mk (some "fr-FR") (.num 1) "" none none)).confidence_in_english_accent =
      max 0 (min 10 (pytrunc (normalize_confidence_to_float (.num 1) * 10))) ∧
    (determine_accent_and_confidence
        (RecognitionResult.mk (some "fr-FR") (.num 1) "" none none)).confidence_in_english_accent ≤ 10 ∧
    (determine_accent_and_confidence
        (RecognitionResult.mk (some "fr-FR") (.num 1) "" none none)).confidence_in_english_accent = 10 :=
  have h := C3_nonenglish_clamped_truncation
    (RecognitionResult.mk (some "fr-FR") (.num 1) "" none none) "fr-FR"
    rfl rfl (by decide) (by decide) (by decide)
  ⟨h.1, h.2.1, h.2.2.1, h.2.2.2 (by decide)⟩
